import Mathlib

/-!
Verification of the MIDAS repair-session orchestrator
(`frontend/src/hooks/useRepairSession.js`) and the bounded AR detection
overlay (`frontend/src/components/AROverlayLayer.jsx` and its variants).

The JavaScript is shallowly embedded: React state becomes an explicit
`SessionState` record, the async turn pipeline becomes a pure function
from a `TurnEnv` (the outcomes of the external collaborator calls and the
interleaving schedule) and a pre-state to a `TurnEffects` record (the
post-state plus the externally observable effects: messages sent to the
chat collaborator, audio playbacks started, events in settlement order).
Cooperative single-threaded scheduling means state can change under a
running turn only at suspension points; the one suspension point that the
claims quantify over (between the joint settlement of the text reveal and
speech synthesis and the cancellation check that guards the transcript
append) is modelled by the `interruptAfterChat` schedule component.
-/

namespace Midas

/-- Session phase, `useState("permissions")`:
`permissions | ready | active | complete`. -/
inductive Phase
  | permissions
  | ready
  | active
  | complete
deriving DecidableEq, Repr

/-- One transcript entry: `{ speaker, text, timestamp: new Date() }`.
Timestamps are drawn from a logical clock in the session state. -/
structure TurnRecord where
  speaker : String
  text : String
  timestamp : Nat
deriving DecidableEq, Repr

/-- One outbound chat message: `{ role, content }`. -/
structure Msg where
  role : String
  content : String
deriving DecidableEq, Repr

/-- JavaScript `String.prototype.trim()`: strip whitespace from both ends.
(Defined over the character list so that it reduces definitionally.) -/
def jsTrim (s : String) : String :=
  String.mk (((s.toList.dropWhile (fun c => c.isWhitespace)).reverse.dropWhile
    (fun c => c.isWhitespace)).reverse)

/-- Split a character list at newlines (the line structure `split("\n")`
induces: every newline separates two lines, empty lines kept). -/
def splitNl : List Char → List (List Char)
  | [] => [[]]
  | c :: cs =>
      match splitNl cs with
      | [] => [[]]
      | l :: ls => if c = '\n' then [] :: l :: ls else (c :: l) :: ls

/-- The lines of a text, as `text.split("\n")` yields them. -/
def linesOf (text : String) : List String :=
  (splitNl text.toList).map (fun cs => String.mk cs)

/-- `{ role: msg.speaker === "user" ? "user" : "assistant", content: msg.text }`. -/
def roleTag (m : TurnRecord) : Msg :=
  { role := if m.speaker = "user" then "user" else "assistant", content := m.text }

/-- `buildMessages(history, newUserText)`: prior transcript converted to
role-tagged entries, plus the trimmed new user text appended when it is
non-empty (JS string truthiness of `newUserText.trim()`). -/
def buildMessages (history : List TurnRecord) (newUserText : String) : List Msg :=
  let msgs := history.map roleTag
  if jsTrim newUserText = "" then msgs
  else msgs ++ [{ role := "user", content := jsTrim newUserText }]

/-- The result of the single-shot structured analysis; only its `steps`
field is ever read by the hook (`diagnosis?.steps?.length`). -/
structure DiagnosisResult where
  steps : List String
deriving DecidableEq, Repr

/-- The audio playback subsystem: `audioRef.current` plus the set of
`Audio` objects on which `play()` was called and neither `pause()` nor
`onended` has run.  Handles are numbered in creation order. -/
structure AudioSys where
  current : Option Nat
  playing : List Nat
  nextId : Nat
deriving DecidableEq, Repr

/-- `stopAudio()`: `if (audioRef.current) { audioRef.current.pause(); audioRef.current = null; }`. -/
def stopAudio (a : AudioSys) : AudioSys :=
  match a.current with
  | some h => { a with current := none, playing := a.playing.erase h }
  | none => a

/-- The React state of `useRepairSession` plus the mutable refs
(`cancelRef`, `audioRef`) and a logical clock for `new Date()`. -/
structure SessionState where
  phase : Phase
  transcript : List TurnRecord
  aiSpeaking : Bool
  streamingText : String
  scanning : Bool
  diagnosis : Option DiagnosisResult
  activeMarkers : List String
  cancelFlag : Bool
  audio : AudioSys
  clock : Nat
deriving DecidableEq, Repr

/-- `setTranscript(prev => [...prev, { speaker, text, timestamp: new Date() }])`. -/
def appendRecord (speaker text : String) (s : SessionState) : SessionState :=
  { s with
      transcript := s.transcript ++ [{ speaker := speaker, text := text, timestamp := s.clock }],
      clock := s.clock + 1 }

/-- `grantPermissions`: `setPhase("ready")`. -/
def grantPermissions (s : SessionState) : SessionState :=
  { s with phase := Phase.ready }

/-- `startSession`: clear everything, stop audio, reset the cancel ref,
enter the active phase. -/
def startSession (s : SessionState) : SessionState :=
  { s with
      transcript := [], diagnosis := none, streamingText := "",
      aiSpeaking := false, scanning := false, activeMarkers := [],
      audio := stopAudio s.audio, cancelFlag := false, phase := Phase.active }

/-- `completeSession`: set the cancel ref, clear the pending timeout, stop
audio, clear the transient flags, enter the complete phase.  The
transcript and diagnosis are kept. -/
def completeSession (s : SessionState) : SessionState :=
  { s with
      cancelFlag := true, audio := stopAudio s.audio, aiSpeaking := false,
      streamingText := "", scanning := false, activeMarkers := [],
      phase := Phase.complete }

/-- `resetSession`: set the cancel ref, stop audio, return to the ready
phase and clear the transcript and diagnosis. -/
def resetSession (s : SessionState) : SessionState :=
  { s with
      cancelFlag := true, audio := stopAudio s.audio, phase := Phase.ready,
      transcript := [], diagnosis := none, streamingText := "",
      aiSpeaking := false, scanning := false, activeMarkers := [] }

/-- `audio.onended`: clear the speaking flag, release the object URL and
null out `audioRef.current` (unconditionally, even if the ref meanwhile
holds a different handle). -/
def audioEnded (h : Nat) (s : SessionState) : SessionState :=
  { s with
      aiSpeaking := false,
      audio := { s.audio with playing := s.audio.playing.erase h, current := none } }

/-- A session-level operation that can run at a suspension point of an
in-flight turn: `completeSession` (end) or `resetSession` (reset). -/
inductive SessionInterrupt
  | complete
  | reset
deriving DecidableEq, Repr

/-- Apply an optional interrupt to the state at a suspension point. -/
def applyInterrupt : Option SessionInterrupt → SessionState → SessionState
  | none, s => s
  | some SessionInterrupt.complete, s => completeSession s
  | some SessionInterrupt.reset, s => resetSession s

/-- Outcome of one external collaborator call: resolved value or rejection. -/
inductive CallResult (α : Type)
  | ok (val : α)
  | err
deriving DecidableEq, Repr

/-- The environment of one turn: the outcome of each collaborator call and
the schedule of the interleaving (which of the two `Promise.all` branches
settles first; whether the session is ended or reset between the chat
resolution and the cancellation check that guards the transcript append). -/
structure TurnEnv where
  captureOk : Bool
  transcribeResult : CallResult String
  chatResult : CallResult String
  speakResult : Option (List Nat)
  revealFirst : Bool
  interruptAfterChat : Option SessionInterrupt
deriving DecidableEq, Repr

/-- Observable settlement events of one turn, in order. -/
inductive TurnEvent
  | chatResolved
  | revealSettled
  | synthSettled
  | transcriptAppended
  | audioStarted
deriving DecidableEq, Repr

/-- The result of running one turn: the post-state plus the externally
observable effects (message histories sent to the chat collaborator,
playback handles started, frame captures attempted, events in settlement
order, and whether the turn rejected). -/
structure TurnEffects where
  state : SessionState
  sent : List (List Msg)
  startedAudio : List Nat
  captureCalls : Nat
  events : List TurnEvent
  threw : Bool
deriving DecidableEq, Repr

/-- The effects of a call that returned without doing anything. -/
def noEffects (s : SessionState) : TurnEffects :=
  { state := s, sent := [], startedAudio := [], captureCalls := 0, events := [], threw := false }

/-- The settlement order of the two `Promise.all` branches
(`streamWords(aiText)` and `speakText(aiText).catch(() => null)`). -/
def settleEvents (revealFirst : Bool) : List TurnEvent :=
  if revealFirst then [TurnEvent.revealSettled, TurnEvent.synthSettled]
  else [TurnEvent.synthSettled, TurnEvent.revealSettled]

/-- `sendToChat(videoEl, userText)` — the shared turn pipeline core.
`capturedTranscript` is the `transcript` variable captured by the
callback's closure: the transcript of the render that created the
callback, i.e. the transcript as of the start of the turn, before any
user record appended during the turn itself. -/
def sendToChat (env : TurnEnv) (capturedTranscript : List TurnRecord) (userText : String)
    (s : SessionState) : TurnEffects :=
  let s1 := { s with streamingText := "Scanning device..." }
  if env.captureOk then
    let messages := buildMessages capturedTranscript userText
    match env.chatResult with
    | CallResult.err =>
        { state := s1, sent := [messages], startedAudio := [], captureCalls := 1,
          events := [], threw := true }
    | CallResult.ok aiText =>
        -- setStreamingText(""); await Promise.all([streamWords, speakText.catch]).
        -- The word-by-word reveal accumulates back to the full text.
        let s3 := { s1 with streamingText := aiText }
        let s4 := applyInterrupt env.interruptAfterChat s3
        let ev0 := TurnEvent.chatResolved :: settleEvents env.revealFirst
        if s4.cancelFlag then
          { state := s4, sent := [messages], startedAudio := [], captureCalls := 1,
            events := ev0, threw := false }
        else
          let s5 := { appendRecord "ai" aiText s4 with streamingText := "" }
          match env.speakResult with
          | none =>
              { state := { s5 with aiSpeaking := false }, sent := [messages],
                startedAudio := [], captureCalls := 1,
                events := ev0 ++ [TurnEvent.transcriptAppended], threw := false }
          | some _bytes =>
              let h := s5.audio.nextId
              let s6 := { s5 with
                audio := { current := some h, playing := s5.audio.playing ++ [h],
                           nextId := h + 1 } }
              { state := s6, sent := [messages], startedAudio := [h], captureCalls := 1,
                events := ev0 ++ [TurnEvent.transcriptAppended, TurnEvent.audioStarted],
                threw := false }
  else
    { state := s1, sent := [], startedAudio := [], captureCalls := 1, events := [],
      threw := true }

/-- The synthetic assistant message appended when a turn fails. -/
def scanErrorText : String :=
  "I couldn\x27t analyze the image. Make sure the server is running and try again."

/-- The `catch`/`finally` blocks shared verbatim by `scan` and `scanPhoto`:
on rejection clear the streaming text, append one synthetic assistant
record and clear the speaking flag; in all cases clear `scanning`. -/
def catchFinally (r : TurnEffects) : TurnEffects :=
  let r2 :=
    if r.threw then
      { r with
          state := { appendRecord "ai" scanErrorText { r.state with streamingText := "" } with
                       aiSpeaking := false },
          threw := false }
    else r
  { r2 with state := { r2.state with scanning := false } }

/-- `scan(videoEl, audioBlob)` — the hold-to-talk flow.  `videoEl` is
whether a video element was passed; `audioBlobSize` is `audioBlob?.size`. -/
def scan (env : TurnEnv) (videoEl : Bool) (audioBlobSize : Option Nat)
    (s : SessionState) : TurnEffects :=
  if s.scanning || !videoEl then noEffects s
  else
    let captured := s.transcript
    let s1 := { s with scanning := true, aiSpeaking := true, cancelFlag := false }
    let tr : String × SessionState :=
      match audioBlobSize with
      | some n =>
          if 0 < n then
            let s2 := { s1 with streamingText := "Transcribing..." }
            match env.transcribeResult with
            | CallResult.ok t => (t, s2)
            | CallResult.err => ("", s2)
          else ("", s1)
      | none => ("", s1)
    let spokenText := tr.1
    let s4 := if jsTrim spokenText = "" then tr.2
      else appendRecord "user" (jsTrim spokenText) tr.2
    catchFinally (sendToChat env captured spokenText s4)

/-- `scanPhoto(videoEl)` — the photo-only flow: same guard and lifecycle,
with empty user text and no transcription stage. -/
def scanPhoto (env : TurnEnv) (videoEl : Bool) (s : SessionState) : TurnEffects :=
  if s.scanning || !videoEl then noEffects s
  else
    let captured := s.transcript
    let s1 := { s with scanning := true, aiSpeaking := true, cancelFlag := false }
    catchFinally (sendToChat env captured "" s1)

/-! ### The AR detection overlay -/

/-- One raw detection as the overlay receives it: the identity the
detection collaborator assigns plus its label (geometry is irrelevant to
the claims and omitted). -/
structure Detection where
  id : String
  label : String
deriving DecidableEq, Repr

/-- `AROverlayLayer` as in `components/AROverlayLayer.jsx`:
`annotations.slice(0, 3).map(a => <ARMarker key={a.id} ... />)` — at most
three markers, each keyed by the collaborator-assigned `id`. -/
def renderedMarkersById (dets : List Detection) : List (String × Detection) :=
  (dets.take 3).map (fun a => (a.id, a))

/-- `AROverlayLayer` as in the slot-keyed variant: `annotations.slice(0, 3)`
rendered with `key={"slot-" + i}` — at most three markers keyed by their
positional slot index in the truncated list. -/
def renderedMarkersBySlot (dets : List Detection) : List (String × Detection) :=
  let visible := dets.take 3
  visible.enum.map (fun p => ("slot-" ++ toString p.1, p.2))

/-! ### The Step Extractor

The checklist-extraction function is documented by the spec but absent
from the sources in this snapshot (only the checklist-consuming UI and
the README's `completeStep()` survive), so it is modelled from the spec. -/

/-- A checklist entry. -/
structure Step where
  text : String
  completed : Bool
deriving DecidableEq, Repr

/-- Modelled from the spec: the emphasis markup characters stripped from a
captured step text (markdown emphasis markers). -/
def isEmphasisChar (c : Char) : Bool :=
  c == '*' || c == '_'

/-- Modelled from the spec: strip emphasis markup characters. -/
def stripEmphasis (s : String) : String :=
  String.mk (s.toList.filter (fun c => !(isEmphasisChar c)))

/-- Modelled from the spec: match one line against the numbered-instruction
pattern — optional leading word "step" (any case), a numeral, then one of
`.`, `)`, `:` or `-`; the remainder of the line is the captured text. -/
def matchNumbered (line : String) : Option String :=
  let cs : List Char := line.toList.dropWhile (fun c => c.isWhitespace)
  let cs2 : List Char :=
    match cs with
    | c1 :: c2 :: c3 :: c4 :: rest =>
        if c1.toLower == 's' && c2.toLower == 't' && c3.toLower == 'e' && c4.toLower == 'p' then
          rest.dropWhile (fun c => c.isWhitespace)
        else cs
    | _ => cs
  let digits := cs2.takeWhile (fun c => c.isDigit)
  let afterDigits := cs2.dropWhile (fun c => c.isDigit)
  if digits.isEmpty then none
  else
    match afterDigits with
    | c :: rest =>
        if c == '.' || c == ')' || c == ':' || c == '-' then some (String.mk rest) else none
    | [] => none

/-- Modelled from the spec: scan the lines in order and build a Step from
the first line matching the numbered-instruction pattern; subsequent
lines are not scanned. -/
def firstStepLine : List String → Option Step
  | [] => none
  | l :: ls =>
      match matchNumbered l with
      | some rem => some { text := jsTrim (stripEmphasis rem), completed := false }
      | none => firstStepLine ls

/-- Modelled from the spec: the Step Extractor — a pure, total function
from assistant text to zero-or-one new checklist entries. -/
def extractStep (text : String) : Option Step :=
  firstStepLine (linesOf text)

/-- Modelled from the spec: run the Step Extractor over one assistant
reply and append its result (if any) to the checklist. -/
def updateChecklist (checklist : List Step) (assistantText : String) : List Step :=
  match extractStep assistantText with
  | some st => checklist ++ [st]
  | none => checklist

/-! ### Concrete fixtures used by counterexamples and witnesses -/

/-- A fresh session state in the given phase. -/
def mkState (p : Phase) : SessionState :=
  { phase := p, transcript := [], aiSpeaking := false, streamingText := "",
    scanning := false, diagnosis := none, activeMarkers := [],
    cancelFlag := false, audio := { current := none, playing := [], nextId := 0 },
    clock := 0 }

/-- An environment in which every collaborator call succeeds. -/
def envOk : TurnEnv :=
  { captureOk := true, transcribeResult := CallResult.ok "",
    chatResult := CallResult.ok "Step 1: Power off the device.",
    speakResult := some [1, 2, 3], revealFirst := true, interruptAfterChat := none }

/-- A state with a turn already in flight. -/
def scanningState : SessionState :=
  { mkState Phase.active with scanning := true }

/-! ### Claim theorems -/

/-- C9.  Overlay bound: for any detection cycle returning k raw detections,
the overlay renders exactly min(k, 3) markers, keeping the first entries
in list order and silently dropping the rest. -/
theorem overlay_bound (dets : List Detection) :
    (renderedMarkersById dets).length = min dets.length 3 ∧
    (renderedMarkersById dets).map Prod.snd = dets.take 3 := by
  constructor
  · show ((dets.take 3).map (fun a => (a.id, a))).length = min dets.length 3
    rw [List.length_map, List.length_take, Nat.min_comm]
  · show (((dets.take 3).map (fun a => (a.id, a))).map Prod.snd) = dets.take 3
    rw [List.map_map]
    exact List.map_id _

/-- C7 counterexample: in `components/AROverlayLayer.jsx` the rendered
markers are keyed by the collaborator-assigned detection ids, not by
positional slot indices — for the two detections with ids `det-7` and
`det-9` the keys are those ids, not `slot-0`, `slot-1`. -/
theorem overlay_id_keys_counterexample :
    (renderedMarkersById
        [{ id := "det-7", label := "cell phone" }, { id := "det-9", label := "screwdriver" }]).map
        Prod.fst = ["det-7", "det-9"] ∧
    (renderedMarkersById
        [{ id := "det-7", label := "cell phone" }, { id := "det-9", label := "screwdriver" }]).map
        Prod.fst ≠ ["slot-0", "slot-1"] := by
  constructor
  · rfl
  · decide

/-- C7 (amended).  The slot-keyed `AROverlayLayer` variant keys its at most
3 rendered markers by positional slot index (`slot-i` for the i-th entry
of the truncated list), while the variant at
`components/AROverlayLayer.jsx` keys them by the id the detection
collaborator assigned. -/
theorem overlay_slot_keys (dets : List Detection) :
    (renderedMarkersBySlot dets).map Prod.fst =
      (List.range (min dets.length 3)).map (fun i => "slot-" ++ toString i) ∧
    (renderedMarkersById dets).map Prod.fst = (dets.take 3).map Detection.id := by
  constructor
  · show (((dets.take 3).enum).map (fun p => ("slot-" ++ toString p.1, p.2))).map Prod.fst =
      (List.range (min dets.length 3)).map (fun i => "slot-" ++ toString i)
    rw [List.map_map]
    have h2 : (Prod.fst ∘ fun p : Nat × Detection => ("slot-" ++ toString p.1, p.2)) =
        (fun i => "slot-" ++ toString i) ∘ Prod.fst := rfl
    rw [h2, ← List.map_map, List.enum_map_fst, List.length_take, Nat.min_comm]
  · show (((dets.take 3).map (fun a => (a.id, a))).map Prod.fst) = (dets.take 3).map Detection.id
    rw [List.map_map]
    rfl

/-- C1 counterexample: `scan`/`scanPhoto` never check the session phase.
In a fresh state whose phase is `ready` (not `active`) and with no turn in
flight, `scanPhoto` is not a no-op: it runs the pipeline and appends an
assistant record to the transcript. -/
theorem single_flight_phase_counterexample :
    (mkState Phase.ready).phase ≠ Phase.active ∧
    (mkState Phase.ready).scanning = false ∧
    (scanPhoto envOk true (mkState Phase.ready)).state.transcript ≠
      (mkState Phase.ready).transcript ∧
    (scanPhoto envOk true (mkState Phase.ready)).sent ≠ [] := by
  refine ⟨by decide, rfl, by decide, by decide⟩

/-- C1 (amended).  Single flight: invoking `scan` or `scanPhoto` while a
turn is in flight (`scanning = true`) — or without a video element — is a
no-op: the state is unchanged and no pipeline execution begins (no frame
capture, no chat call, no audio, no events).  The session phase is not
consulted by this guard. -/
theorem single_flight_noop (env : TurnEnv) (v : Bool) (blob : Option Nat)
    (s : SessionState) (h : s.scanning = true) :
    scan env v blob s = noEffects s ∧ scanPhoto env v s = noEffects s := by
  constructor <;> simp [scan, scanPhoto, h]

/-- If no line matches the numbered-instruction pattern, the scan finds
no step. -/
lemma firstStepLine_eq_none (ls : List String) (h : ∀ l ∈ ls, matchNumbered l = none) :
    firstStepLine ls = none := by
  induction ls with
  | nil => rfl
  | cons l ls ih =>
    unfold firstStepLine
    rw [h l (List.mem_cons_self l ls)]
    exact ih fun x hx => h x (List.mem_cons_of_mem l hx)

/-- A found step comes from the first matching line: the lines before it
do not match, and the step is that line's captured remainder with
emphasis markup stripped and `completed := false`. -/
lemma firstStepLine_some (ls : List String) (st : Step) (h : firstStepLine ls = some st) :
    ∃ pre l rem suff, ls = pre ++ l :: suff ∧ (∀ x ∈ pre, matchNumbered x = none) ∧
      matchNumbered l = some rem ∧
      st = { text := jsTrim (stripEmphasis rem), completed := false } := by
  induction ls with
  | nil => exact absurd h (by simp [firstStepLine])
  | cons l ls ih =>
    cases hml : matchNumbered l with
    | some rem =>
        refine ⟨[], l, rem, ls, rfl, by simp, hml, ?_⟩
        unfold firstStepLine at h
        rw [hml] at h
        exact (Option.some.inj h).symm
    | none =>
        unfold firstStepLine at h
        rw [hml] at h
        obtain ⟨pre, l2, rem, suff, hls, hpre, hm2, hst⟩ := ih h
        refine ⟨l :: pre, l2, rem, suff, by simp [hls], ?_, hm2, hst⟩
        intro x hx
        rcases List.mem_cons.mp hx with h1 | h2
        · rw [h1]; exact hml
        · exact hpre x h2

/-- C5.  Step Extractor: scanning an assistant text appends at most one
new Step — taken from the first line matching the numbered-instruction
pattern, with emphasis markup stripped and `completed = false` — never
alters or removes existing entries, and appends zero steps when no line
matches. -/
theorem step_extractor_append_only (cl : List Step) (text : String) :
    (updateChecklist cl text).take cl.length = cl ∧
    (updateChecklist cl text).length ≤ cl.length + 1 ∧
    (∀ st ∈ (updateChecklist cl text).drop cl.length, st.completed = false) ∧
    (∀ st, extractStep text = some st →
      ∃ pre l rem suff, linesOf text = pre ++ l :: suff ∧
        (∀ x ∈ pre, matchNumbered x = none) ∧ matchNumbered l = some rem ∧
        st = { text := jsTrim (stripEmphasis rem), completed := false }) ∧
    ((∀ l ∈ linesOf text, matchNumbered l = none) → updateChecklist cl text = cl) := by
  cases hx : extractStep text with
  | none =>
      refine ⟨?_, ?_, ?_, ?_, fun _ => ?_⟩ <;>
        simp [updateChecklist, hx]
  | some st =>
      obtain ⟨pre, l, rem, suff, hls, hpre, hm, hst⟩ := firstStepLine_some _ st hx
      refine ⟨?_, ?_, ?_, ?_, ?_⟩
      · simp [updateChecklist, hx, List.take_left]
      · simp [updateChecklist, hx]
      · intro s2 hs2
        rw [show updateChecklist cl text = cl ++ [st] from by simp [updateChecklist, hx],
          List.drop_left] at hs2
        rw [List.mem_singleton.mp hs2, hst]
      · intro s2 hs2
        have he : st = s2 := Option.some.inj hs2
        exact ⟨pre, l, rem, suff, hls, hpre, hm, by rw [← he]; exact hst⟩
      · intro hall
        have : firstStepLine (linesOf text) = none := firstStepLine_eq_none _ hall
        rw [show extractStep text = firstStepLine (linesOf text) from rfl, this] at hx
        exact absurd hx (by simp)

/-- C5 witness: a concrete text with no numbered line appends zero steps
to a concrete checklist. -/
theorem step_extractor_witness :
    updateChecklist [{ text := "done before", completed := true }] "no numbers here\njust text"
      = [{ text := "done before", completed := true }] :=
  (step_extractor_append_only
      [{ text := "done before", completed := true }] "no numbers here\njust text").2.2.2.2
    (by decide)

/-- C1 witness: the single-flight no-op at a concrete in-flight state. -/
theorem single_flight_noop_witness :
    scanningState.scanning = true ∧
    scan envOk true none scanningState = noEffects scanningState ∧
    scanPhoto envOk true scanningState = noEffects scanningState :=
  ⟨rfl, (single_flight_noop envOk true none scanningState rfl).1,
    (single_flight_noop envOk true none scanningState rfl).2⟩

/-- The trim of the empty user text. -/
lemma jsTrim_empty : jsTrim "" = "" := rfl

/-- When the chat collaborator rejects, the shared pipeline core plus the
`catch`/`finally` blocks produce exactly the synthetic-error effects. -/
lemma catchFinally_sendToChat_err (env : TurnEnv) (cap : List TurnRecord) (u : String)
    (s4 : SessionState) (hcap : env.captureOk = true) (hchat : env.chatResult = CallResult.err) :
    catchFinally (sendToChat env cap u s4) =
      { state := { appendRecord "ai" scanErrorText { s4 with streamingText := "" } with
                     aiSpeaking := false, scanning := false },
        sent := [buildMessages cap u], startedAudio := [], captureCalls := 1,
        events := [], threw := false } := by
  simp [sendToChat, catchFinally, hcap, hchat]

/-- C3.  Turn failure handling: when the chat collaborator rejects during
a turn started by `scan` or `scanPhoto`, the transcript gains exactly one
synthetic assistant record (after at most one user record from the
transcription stage), `scanning` is reset to false, the diagnosis-derived
checklist is untouched, and the chat collaborator was invoked exactly
once (no automatic retry). -/
theorem turn_failure (env : TurnEnv) (blob : Option Nat) (s : SessionState)
    (hs : s.scanning = false) (hcap : env.captureOk = true)
    (hchat : env.chatResult = CallResult.err) :
    ((scan env true blob s).state.scanning = false ∧
      (scan env true blob s).state.diagnosis = s.diagnosis ∧
      (scan env true blob s).sent.length = 1 ∧
      ∃ pre ts, (scan env true blob s).state.transcript
          = s.transcript ++ pre ++ [{ speaker := "ai", text := scanErrorText, timestamp := ts }] ∧
        pre.length ≤ 1 ∧ ∀ r ∈ pre, r.speaker = "user") ∧
    ((scanPhoto env true s).state.scanning = false ∧
      (scanPhoto env true s).state.diagnosis = s.diagnosis ∧
      (scanPhoto env true s).sent.length = 1 ∧
      (scanPhoto env true s).state.transcript
        = s.transcript ++ [{ speaker := "ai", text := scanErrorText, timestamp := s.clock }]) := by
  constructor
  · have hguard : (s.scanning || !true) = false := by simp [hs]
    rcases blob with _ | n
    · rw [show scan env true none s
          = catchFinally (sendToChat env s.transcript ""
              { s with scanning := true, aiSpeaking := true, cancelFlag := false }) from by
        simp [scan, hs, jsTrim_empty]]
      rw [catchFinally_sendToChat_err env _ _ _ hcap hchat]
      refine ⟨rfl, rfl, rfl, [], s.clock, by simp [appendRecord], by simp, by simp⟩
    · by_cases hn : 0 < n
      · cases htr : env.transcribeResult with
        | err =>
            rw [show scan env true (some n) s
                = catchFinally (sendToChat env s.transcript ""
                    { s with scanning := true, aiSpeaking := true, cancelFlag := false,
                             streamingText := "Transcribing..." }) from by
              simp [scan, hs, hn, htr, jsTrim_empty]]
            rw [catchFinally_sendToChat_err env _ _ _ hcap hchat]
            refine ⟨rfl, rfl, rfl, [], s.clock, by simp [appendRecord], by simp, by simp⟩
        | ok t =>
            by_cases ht : jsTrim t = ""
            · rw [show scan env true (some n) s
                  = catchFinally (sendToChat env s.transcript t
                      { s with scanning := true, aiSpeaking := true, cancelFlag := false,
                               streamingText := "Transcribing..." }) from by
                simp [scan, hs, hn, htr, ht]]
              rw [catchFinally_sendToChat_err env _ _ _ hcap hchat]
              refine ⟨rfl, rfl, rfl, [], s.clock, by simp [appendRecord], by simp, by simp⟩
            · rw [show scan env true (some n) s
                  = catchFinally (sendToChat env s.transcript t
                      (appendRecord "user" (jsTrim t)
                        { s with scanning := true, aiSpeaking := true, cancelFlag := false,
                                 streamingText := "Transcribing..." })) from by
                simp [scan, hs, hn, htr, ht]]
              rw [catchFinally_sendToChat_err env _ _ _ hcap hchat]
              refine ⟨rfl, rfl, rfl,
                [{ speaker := "user", text := jsTrim t, timestamp := s.clock }], s.clock + 1,
                by simp [appendRecord], by simp, by simp⟩
      · rw [show scan env true (some n) s
            = catchFinally (sendToChat env s.transcript ""
                { s with scanning := true, aiSpeaking := true, cancelFlag := false }) from by
          simp [scan, hs, hn, jsTrim_empty]]
        rw [catchFinally_sendToChat_err env _ _ _ hcap hchat]
        refine ⟨rfl, rfl, rfl, [], s.clock, by simp [appendRecord], by simp, by simp⟩
  · rw [show scanPhoto env true s
        = catchFinally (sendToChat env s.transcript ""
            { s with scanning := true, aiSpeaking := true, cancelFlag := false }) from by
      simp [scanPhoto, hs, jsTrim_empty]]
    rw [catchFinally_sendToChat_err env _ _ _ hcap hchat]
    exact ⟨rfl, rfl, rfl, by simp [appendRecord]⟩

/-- C3 witness: the failure effects at a concrete state and environment in
which the chat collaborator rejects. -/
theorem turn_failure_witness :
    ((scan { envOk with chatResult := CallResult.err } true none (mkState Phase.active)).state.scanning
        = false ∧
      (scan { envOk with chatResult := CallResult.err } true none (mkState Phase.active)).state.diagnosis
        = (mkState Phase.active).diagnosis ∧
      (scan { envOk with chatResult := CallResult.err } true none (mkState Phase.active)).sent.length
        = 1 ∧
      ∃ pre ts,
        (scan { envOk with chatResult := CallResult.err } true none
            (mkState Phase.active)).state.transcript
          = (mkState Phase.active).transcript ++ pre
              ++ [{ speaker := "ai", text := scanErrorText, timestamp := ts }] ∧
        pre.length ≤ 1 ∧ ∀ r ∈ pre, r.speaker = "user") ∧
    ((scanPhoto { envOk with chatResult := CallResult.err } true
          (mkState Phase.active)).state.scanning = false ∧
      (scanPhoto { envOk with chatResult := CallResult.err } true
          (mkState Phase.active)).state.diagnosis = (mkState Phase.active).diagnosis ∧
      (scanPhoto { envOk with chatResult := CallResult.err } true
          (mkState Phase.active)).sent.length = 1 ∧
      (scanPhoto { envOk with chatResult := CallResult.err } true
          (mkState Phase.active)).state.transcript
        = (mkState Phase.active).transcript
            ++ [{ speaker := "ai", text := scanErrorText,
                  timestamp := (mkState Phase.active).clock }]) :=
  turn_failure { envOk with chatResult := CallResult.err } none (mkState Phase.active)
    rfl rfl rfl

/-- C2.  Cancellation safety: if the session is ended or reset after a
turn's chat stage has resolved but before the transcript append, the
assistant record is never appended (no `transcriptAppended` event), no
playback is started, and the transcript is either exactly what it was
(end) or cleared by the reset itself — the turn adds nothing to it. -/
theorem cancellation_safety (env : TurnEnv) (cap : List TurnRecord) (u : String)
    (s : SessionState) (r : String)
    (hok : env.chatResult = CallResult.ok r)
    (hint : env.interruptAfterChat ≠ none) :
    TurnEvent.transcriptAppended ∉ (sendToChat env cap u s).events ∧
    (sendToChat env cap u s).startedAudio = [] ∧
    ((sendToChat env cap u s).state.transcript = s.transcript ∨
      (sendToChat env cap u s).state.transcript = []) := by
  cases hi : env.interruptAfterChat with
  | none => exact absurd hi hint
  | some i =>
      by_cases hc : env.captureOk
      · cases i
        · refine ⟨?_, ?_, Or.inl ?_⟩ <;>
            simp [sendToChat, hok, hi, hc, applyInterrupt, completeSession, settleEvents] <;>
            cases env.revealFirst <;> simp
        · refine ⟨?_, ?_, Or.inr ?_⟩ <;>
            simp [sendToChat, hok, hi, hc, applyInterrupt, resetSession, settleEvents] <;>
            cases env.revealFirst <;> simp
      · refine ⟨?_, ?_, Or.inl ?_⟩ <;> simp [sendToChat, hc]

/-- C2 witness: ending the session at the post-chat suspension point of a
concrete turn appends nothing and starts no audio. -/
theorem cancellation_safety_witness :
    TurnEvent.transcriptAppended ∉
      (sendToChat { envOk with interruptAfterChat := some SessionInterrupt.complete } [] ""
          (mkState Phase.active)).events ∧
    (sendToChat { envOk with interruptAfterChat := some SessionInterrupt.complete } [] ""
        (mkState Phase.active)).startedAudio = [] ∧
    ((sendToChat { envOk with interruptAfterChat := some SessionInterrupt.complete } [] ""
          (mkState Phase.active)).state.transcript = (mkState Phase.active).transcript ∨
      (sendToChat { envOk with interruptAfterChat := some SessionInterrupt.complete } [] ""
          (mkState Phase.active)).state.transcript = []) :=
  cancellation_safety { envOk with interruptAfterChat := some SessionInterrupt.complete } [] ""
    (mkState Phase.active) "Step 1: Power off the device." rfl (by decide)

/-- C4 counterexample: running two consecutive successful audio-bearing
turns from a fresh active state leaves two playback handles active at
once — the first turn's playback is never stopped before the second
turn's playback starts, refuting "any prior playback handle is stopped
and released before the new playback handle is created and started, so at
most one playback is ever active". -/
theorem audio_overlap_counterexample :
    (scanPhoto envOk true
        ((scanPhoto envOk true (mkState Phase.active)).state)).state.audio.playing = [0, 1] ∧
    ¬((scanPhoto envOk true
        ((scanPhoto envOk true (mkState Phase.active)).state)).state.audio.playing.length ≤ 1) := by
  constructor <;> decide

/-- C4 (amended).  Audio handle discipline as implemented: when a turn
obtains synthesized audio bytes, the new playback handle overwrites
`audioRef` and is started without stopping the prior playback — the prior
handles remain in the playing set, so playbacks can overlap; prior
playback is stopped only by `stopAudio` (from `startSession`,
`completeSession` or `resetSession`). -/
theorem audio_replacement (env : TurnEnv) (cap : List TurnRecord) (u : String)
    (s : SessionState) (r : String) (b : List Nat)
    (hcap : env.captureOk = true) (hchat : env.chatResult = CallResult.ok r)
    (hspeak : env.speakResult = some b) (hint : env.interruptAfterChat = none)
    (hflag : s.cancelFlag = false) :
    (sendToChat env cap u s).state.audio.current = some s.audio.nextId ∧
    (sendToChat env cap u s).state.audio.playing = s.audio.playing ++ [s.audio.nextId] ∧
    (sendToChat env cap u s).startedAudio = [s.audio.nextId] := by
  refine ⟨?_, ?_, ?_⟩ <;>
    simp [sendToChat, hcap, hchat, hspeak, hint, applyInterrupt, hflag, appendRecord]

/-- C4 witness: the overwriting replacement at a concrete state that
already has one active playback. -/
theorem audio_replacement_witness :
    (sendToChat envOk [] ""
        { mkState Phase.active with
            audio := { current := some 0, playing := [0], nextId := 1 } }).state.audio.current
      = some 1 ∧
    (sendToChat envOk [] ""
        { mkState Phase.active with
            audio := { current := some 0, playing := [0], nextId := 1 } }).state.audio.playing
      = [0, 1] ∧
    (sendToChat envOk [] ""
        { mkState Phase.active with
            audio := { current := some 0, playing := [0], nextId := 1 } }).startedAudio = [1] :=
  audio_replacement envOk [] ""
    { mkState Phase.active with audio := { current := some 0, playing := [0], nextId := 1 } }
    "Step 1: Power off the device." [1, 2, 3] rfl rfl rfl rfl rfl

/-- C6.  Joint settlement ordering: in a successful, uncancelled turn the
text-reveal and speech-synthesis stages settle in either order, and the
transcript append happens only after both have settled — the
`transcriptAppended` event is preceded by both settlement events and by
no earlier append. -/
theorem joint_settlement (env : TurnEnv) (cap : List TurnRecord) (u : String)
    (s : SessionState) (r : String)
    (hcap : env.captureOk = true) (hchat : env.chatResult = CallResult.ok r)
    (hint : env.interruptAfterChat = none) (hflag : s.cancelFlag = false) :
    ∃ pre post, (sendToChat env cap u s).events = pre ++ TurnEvent.transcriptAppended :: post ∧
      TurnEvent.revealSettled ∈ pre ∧ TurnEvent.synthSettled ∈ pre ∧
      TurnEvent.transcriptAppended ∉ pre := by
  cases hsp : env.speakResult with
  | none =>
      refine ⟨TurnEvent.chatResolved :: settleEvents env.revealFirst, [], ?_, ?_, ?_, ?_⟩
      · simp [sendToChat, hcap, hchat, hint, applyInterrupt, hflag, hsp]
      · cases env.revealFirst <;> simp [settleEvents]
      · cases env.revealFirst <;> simp [settleEvents]
      · cases env.revealFirst <;> simp [settleEvents]
  | some b =>
      refine ⟨TurnEvent.chatResolved :: settleEvents env.revealFirst,
        [TurnEvent.audioStarted], ?_, ?_, ?_, ?_⟩
      · simp [sendToChat, hcap, hchat, hint, applyInterrupt, hflag, hsp]
      · cases env.revealFirst <;> simp [settleEvents]
      · cases env.revealFirst <;> simp [settleEvents]
      · cases env.revealFirst <;> simp [settleEvents]

/-- C6 witness: the ordering at a concrete successful turn. -/
theorem joint_settlement_witness :
    ∃ pre post,
      (sendToChat envOk [] "" (mkState Phase.active)).events
        = pre ++ TurnEvent.transcriptAppended :: post ∧
      TurnEvent.revealSettled ∈ pre ∧ TurnEvent.synthSettled ∈ pre ∧
      TurnEvent.transcriptAppended ∉ pre :=
  joint_settlement envOk [] "" (mkState Phase.active) "Step 1: Power off the device."
    rfl rfl rfl rfl

/-- C8.  Transcription failure is non-fatal: when the transcription
collaborator rejects during a `scan` with a non-empty audio blob, no user
record is appended, and the rest of the pipeline still executes — the
frame is captured, the chat collaborator is invoked with empty user text,
the assistant reply is appended, and both the reveal and the synthesis
stages settle. -/
theorem transcription_nonfatal (env : TurnEnv) (s : SessionState) (n : Nat) (r : String)
    (hs : s.scanning = false) (hn : 0 < n)
    (htr : env.transcribeResult = CallResult.err)
    (hcap : env.captureOk = true) (hchat : env.chatResult = CallResult.ok r)
    (hint : env.interruptAfterChat = none) :
    (scan env true (some n) s).captureCalls = 1 ∧
    (scan env true (some n) s).sent = [buildMessages s.transcript ""] ∧
    (scan env true (some n) s).state.transcript
      = s.transcript ++ [{ speaker := "ai", text := r, timestamp := s.clock }] ∧
    TurnEvent.revealSettled ∈ (scan env true (some n) s).events ∧
    TurnEvent.synthSettled ∈ (scan env true (some n) s).events := by
  rw [show scan env true (some n) s
      = catchFinally (sendToChat env s.transcript ""
          { s with scanning := true, aiSpeaking := true, cancelFlag := false,
                   streamingText := "Transcribing..." }) from by
    simp [scan, hs, hn, htr, jsTrim_empty]]
  cases hsp : env.speakResult <;>
    refine ⟨?_, ?_, ?_, ?_, ?_⟩ <;>
      simp [sendToChat, catchFinally, hcap, hchat, hint, applyInterrupt, hsp, appendRecord,
        settleEvents] <;>
      cases env.revealFirst <;> simp

/-- C8 witness: the non-fatal transcription failure at a concrete state
and environment. -/
theorem transcription_nonfatal_witness :
    (scan { envOk with transcribeResult := CallResult.err } true (some 5)
        (mkState Phase.active)).captureCalls = 1 ∧
    (scan { envOk with transcribeResult := CallResult.err } true (some 5)
        (mkState Phase.active)).sent
      = [buildMessages (mkState Phase.active).transcript ""] ∧
    (scan { envOk with transcribeResult := CallResult.err } true (some 5)
        (mkState Phase.active)).state.transcript
      = (mkState Phase.active).transcript
          ++ [{ speaker := "ai", text := "Step 1: Power off the device.",
                timestamp := (mkState Phase.active).clock }] ∧
    TurnEvent.revealSettled ∈
      (scan { envOk with transcribeResult := CallResult.err } true (some 5)
        (mkState Phase.active)).events ∧
    TurnEvent.synthSettled ∈
      (scan { envOk with transcribeResult := CallResult.err } true (some 5)
        (mkState Phase.active)).events :=
  transcription_nonfatal { envOk with transcribeResult := CallResult.err }
    (mkState Phase.active) 5 "Step 1: Power off the device." rfl (by decide) rfl rfl rfl rfl

/-- Whatever happens after the chat call, one turn sends exactly one
message history to the chat collaborator. -/
lemma catchFinally_sendToChat_sent (env : TurnEnv) (cap : List TurnRecord) (u : String)
    (s : SessionState) (hcap : env.captureOk = true) :
    (catchFinally (sendToChat env cap u s)).sent = [buildMessages cap u] := by
  cases hc : env.chatResult with
  | err => simp [sendToChat, catchFinally, hcap, hc]
  | ok r =>
      cases hi : env.interruptAfterChat with
      | some i =>
          cases i <;>
            simp [sendToChat, catchFinally, hcap, hc, hi, applyInterrupt, completeSession,
              resetSession]
      | none =>
          by_cases hcf : s.cancelFlag <;>
            simp [sendToChat, catchFinally, hcap, hc, hi, applyInterrupt, hcf] <;>
            cases env.speakResult <;> simp

/-- C10.  No duplicated user utterance: the message list sent to the chat
collaborator is built from the transcript as captured when the turn began
(before the new user record was appended to state) followed by at most
one final user message holding the new trimmed text when it is non-empty
— the new utterance appears exactly once. -/
theorem no_duplicate_utterance (env : TurnEnv) (s : SessionState) (n : Nat) (t : String)
    (hs : s.scanning = false) (hn : 0 < n)
    (htr : env.transcribeResult = CallResult.ok t) (hcap : env.captureOk = true) :
    (scan env true (some n) s).sent = [buildMessages s.transcript t] ∧
    (scanPhoto env true s).sent = [buildMessages s.transcript ""] ∧
    buildMessages s.transcript t
      = s.transcript.map roleTag
          ++ (if jsTrim t = "" then [] else [{ role := "user", content := jsTrim t }]) := by
  refine ⟨?_, ?_, ?_⟩
  · by_cases ht : jsTrim t = ""
    · rw [show scan env true (some n) s
          = catchFinally (sendToChat env s.transcript t
              { s with scanning := true, aiSpeaking := true, cancelFlag := false,
                       streamingText := "Transcribing..." }) from by
        simp [scan, hs, hn, htr, ht]]
      exact catchFinally_sendToChat_sent env s.transcript t _ hcap
    · rw [show scan env true (some n) s
          = catchFinally (sendToChat env s.transcript t
              (appendRecord "user" (jsTrim t)
                { s with scanning := true, aiSpeaking := true, cancelFlag := false,
                         streamingText := "Transcribing..." })) from by
        simp [scan, hs, hn, htr, ht]]
      exact catchFinally_sendToChat_sent env s.transcript t _ hcap
  · rw [show scanPhoto env true s
        = catchFinally (sendToChat env s.transcript ""
            { s with scanning := true, aiSpeaking := true, cancelFlag := false }) from by
      simp [scanPhoto, hs, jsTrim_empty]]
    exact catchFinally_sendToChat_sent env s.transcript "" _ hcap
  · by_cases ht : jsTrim t = "" <;> simp [buildMessages, ht]

/-- C10 witness: the outbound history at a concrete turn whose transcript
already holds one user and one assistant record. -/
theorem no_duplicate_utterance_witness :
    (scan envOk true (some 5)
        { mkState Phase.active with
            transcript := [{ speaker := "user", text := "hello", timestamp := 0 },
              { speaker := "ai", text := "hi", timestamp := 1 }] }).sent
      = [buildMessages
          [{ speaker := "user", text := "hello", timestamp := 0 },
            { speaker := "ai", text := "hi", timestamp := 1 }] ""] ∧
    (scanPhoto envOk true
        { mkState Phase.active with
            transcript := [{ speaker := "user", text := "hello", timestamp := 0 },
              { speaker := "ai", text := "hi", timestamp := 1 }] }).sent
      = [buildMessages
          [{ speaker := "user", text := "hello", timestamp := 0 },
            { speaker := "ai", text := "hi", timestamp := 1 }] ""] ∧
    buildMessages
        [{ speaker := "user", text := "hello", timestamp := 0 },
          { speaker := "ai", text := "hi", timestamp := 1 }] ""
      = ([{ speaker := "user", text := "hello", timestamp := 0 },
          { speaker := "ai", text := "hi", timestamp := 1 }] : List TurnRecord).map roleTag
          ++ (if jsTrim "" = "" then []
              else [{ role := "user", content := jsTrim "" }]) :=
  no_duplicate_utterance envOk
    { mkState Phase.active with
        transcript := [{ speaker := "user", text := "hello", timestamp := 0 },
          { speaker := "ai", text := "hi", timestamp := 1 }] }
    5 "" rfl (by decide) rfl rfl

end Midas
